import Mathlib

/-!
Shallow embedding of the xrp402 facilitator core (verify.ts, fee.ts,
network-checks.ts, mpt-checks.ts, xrpl-payload.ts, constants.ts) and proofs
about the verification pipeline, the settlement engine and the two-phase fee
settlement.

External xrpl SDK operations (decode, validate, verifySignature) and ledger
RPC responses are modelled as oracles supplied to the pipeline; a thrown
exception in an external call is modelled as none / Except.error.
-/

deriving instance DecidableEq for Except

namespace Xrp402

/-! ## JavaScript numeric string parsing -/

/-- Numeric value of the decimal digits in a list, most significant first. -/
def digitsToNat (ds : List Nat) : Nat :=
  ds.foldl (fun acc d => acc * 10 + d) 0

/-- Splits a character list into its leading run of decimal digits (as digit
values) and the remainder. -/
def takeDigits : List Char → List Nat × List Char
  | [] => ([], [])
  | c :: cs =>
    if c.isDigit then
      let (ds, rest) := takeDigits cs
      ((c.toNat - 48) :: ds, rest)
    else ([], c :: cs)

/-- Model of JavaScript parseFloat on the decimal amount strings this pipeline
compares: an optional sign, integer digits, and an optional fractional part are
parsed as the longest valid numeric prefix of the string; a string contributing
no digits at all yields NaN, modelled as none.  (Exponent notation, Infinity
and leading whitespace do not occur in ledger amount strings and are not
modelled.) -/
def parseFloat (s : String) : Option ℚ :=
  let cs := s.toList
  let (sign, cs1) :=
    match cs with
    | '-' :: rest => ((-1 : Int), rest)
    | '+' :: rest => ((1 : Int), rest)
    | _ => ((1 : Int), cs)
  let (intDs, cs2) := takeDigits cs1
  let fracDs :=
    match cs2 with
    | '.' :: rest => (takeDigits rest).1
    | _ => []
  if intDs.isEmpty && fracDs.isEmpty then none
  else
    some (mkRat (sign * ((digitsToNat intDs) * 10 ^ fracDs.length + digitsToNat fracDs))
      (10 ^ fracDs.length))

/-- Model of JavaScript BigInt(string) on drop strings: an optional sign
followed by decimal digits; the empty string yields 0 (as BigInt does); any
other content throws, modelled as none.  (Hex, octal and binary prefixes and
whitespace trimming do not occur in drop strings and are not modelled.) -/
def parseBigInt (s : String) : Option Int :=
  let cs := s.toList
  if cs.isEmpty then some 0
  else
    let (sign, ds) :=
      match cs with
      | '-' :: rest => ((-1 : Int), rest)
      | '+' :: rest => ((1 : Int), rest)
      | _ => ((1 : Int), cs)
    if ds.isEmpty then none
    else if ds.all Char.isDigit then
      some (sign * (digitsToNat (ds.map (fun c => c.toNat - 48)) : Int))
    else none

/-- JavaScript strict equality on two parseFloat results: NaN (none) is equal
to nothing, including itself. -/
def floatEq : Option ℚ → Option ℚ → Bool
  | some a, some b => a == b
  | _, _ => false

/-- JavaScript less-than on two parseFloat results: any comparison involving
NaN is false. -/
def floatLt : Option ℚ → Option ℚ → Bool
  | some a, some b => a < b
  | _, _ => false

/-- The sufficiency rejection condition of checkAmount for parsed values,
modelling the source line isNaN(payment) or isNaN(required) or
payment < required. -/
def insufficientFloat (p r : Option ℚ) : Bool :=
  match p, r with
  | some pv, some rv => pv < rv
  | _, _ => true

/-- Whether the second character list is an initial segment of the first. -/
def listStartsWith : List Char → List Char → Bool
  | _, [] => true
  | [], _ :: _ => false
  | c :: cs, p :: ps => c == p && listStartsWith cs ps

/-- String.startsWith, computed on the character lists. -/
def strStartsWith (s pat : String) : Bool :=
  listStartsWith s.toList pat.toList

/-- String.slice / String.drop, computed on the character lists. -/
def strDrop (s : String) (n : Nat) : String :=
  String.mk (s.toList.drop n)

/-- Emptiness of a string, computed on the character list. -/
def strIsEmpty (s : String) : Bool :=
  s.toList.isEmpty

/-- JavaScript truthiness test for an optional string: undefined and the empty
string are falsy. -/
def strFalsy : Option String → Bool
  | none => true
  | some s => strIsEmpty s

/-! ## Amount model (xrpl-payload.ts)

The source types amounts as string or structurally-sniffed objects; the model
keeps that shape: a JS amount value is either a string or an object whose four
identifying keys may each be present or absent. -/

/-- An amount object as it arrives from JSON: each identifying key may be
present (some) or absent (none). -/
structure AmtObj where
  currency : Option String
  issuer : Option String
  value : Option String
  mpt_issuance_id : Option String
deriving DecidableEq, Repr

/-- A JS amount value: a string (XRP drops) or an object. -/
inductive AmountVal
  | str (s : String)
  | obj (o : AmtObj)
deriving DecidableEq, Repr

/-- Type guard isIssuedCurrencyAmount: an object carrying currency, issuer and
value keys. -/
def isIssuedCurrencyAmount : AmountVal → Bool
  | .str _ => false
  | .obj o => o.currency.isSome && o.issuer.isSome && o.value.isSome

/-- Type guard isMPTAmount: an object carrying mpt_issuance_id and value keys
and no currency key. -/
def isMPTAmount : AmountVal → Bool
  | .str _ => false
  | .obj o => o.mpt_issuance_id.isSome && o.value.isSome && !o.currency.isSome

/-- Asset classification result. -/
inductive AssetType
  | xrp
  | issued
  | mpt
deriving DecidableEq, Repr

/-- classifyAsset: "XRP" is native, a leading "r" is an issued-currency issuer
address, a leading "mpt:" is an MPT issuance; anything else throws in the
source, modelled as none. -/
def classifyAsset (asset : String) : Option AssetType :=
  if asset = "XRP" then some .xrp
  else if strStartsWith asset "r" then some .issued
  else if strStartsWith asset "mpt:" then some .mpt
  else none

/-! ## Payload, requirements and result types -/

/-- The decoded transaction record (a JS object of unknown shape); each field
the pipeline reads may be present or absent. -/
structure Tx where
  Account : Option String
  Destination : Option String
  Fee : Option String
  Amount : Option AmountVal
  Sequence : Option Int
  TicketSequence : Option Int
  LastLedgerSequence : Option Int
  Flags : Option Nat
deriving DecidableEq, Repr

/-- The claimed authorization fields of the payload. -/
structure XrplAuthorization where
  account : String
  destination : String
  amount : AmountVal
  fee : String
  sequence : Int
  ticketSequence : Option Int
  lastLedgerSequence : Option Int
deriving DecidableEq, Repr

/-- Fee authorization fields for paid-tier features. -/
structure FeeAuthorization where
  account : String
  destination : String
  amount : String
  sequence : Int
  ticketSequence : Option Int
deriving DecidableEq, Repr

/-- The payload for scheme "exact" on XRPL. -/
structure ExactXrplPayload where
  txBlob : String
  authorization : XrplAuthorization
  feeTxBlob : Option String
  feeAuthorization : Option FeeAuthorization
deriving DecidableEq, Repr

/-- Payment requirements set by the resource server (the fields the core
reads). -/
structure PaymentRequirements where
  payTo : String
  maxAmountRequired : String
  asset : String
  network : String
deriving DecidableEq, Repr

/-- Verify endpoint response: valid, or invalid with a reason. -/
inductive VerifyResponse
  | valid
  | invalid (reason : String)
deriving DecidableEq, Repr

/-- The isValid field of a VerifyResponse. -/
def VerifyResponse.isValid : VerifyResponse → Bool
  | .valid => true
  | .invalid _ => false

/-- The invalidReason field of a VerifyResponse. -/
def VerifyResponse.invalidReason : VerifyResponse → Option String
  | .valid => none
  | .invalid r => some r

/-! ## Constants (constants.ts) -/

/-- tfPartialPayment flag. -/
def PARTIAL_PAYMENT_FLAG : Nat := 0x00020000

/-- tfMPTCanTransfer issuance flag (MPT_FLAGS.tfMPTCanTransfer). -/
def tfMPTCanTransfer : Nat := 0x0020

/-- MPT issuance configuration entry. -/
structure MptConfig where
  issuanceId : String
  name : String
  issuer : String
  assetScale : Nat
deriving DecidableEq, Repr

/-- MPT_ALLOWLIST: empty for every network in the source. -/
def MPT_ALLOWLIST (_network : String) : List MptConfig := []

/-- getMptConfig: look up an issuance ID in the per-network allowlist. -/
def getMptConfig (network : String) (issuanceId : String) : Option MptConfig :=
  (MPT_ALLOWLIST network).find? (fun mpt => mpt.issuanceId == issuanceId)

/-! ## External SDK oracle -/

/-- The xrpl SDK operations the pipeline consumes; none / false models the
operation throwing. -/
structure SdkEnv where
  decode : String → Option Tx
  validate : Tx → Bool
  verifySignature : String → Option Bool

/-! ## Offline verification steps (verify.ts) -/

/-- Step 1: decode the blob; a decode throw yields invalid_tx_blob. -/
def decodeTxBlob (env : SdkEnv) (txBlob : String) : Tx ⊕ VerifyResponse :=
  match env.decode txBlob with
  | some tx => .inl tx
  | none => .inr (.invalid "invalid_tx_blob")

/-- Step 2: structural validation; a validate throw yields
invalid_transaction_structure. -/
def validateTransaction (env : SdkEnv) (tx : Tx) : Option VerifyResponse :=
  if env.validate tx then none else some (.invalid "invalid_transaction_structure")

/-- Step 3: signature verification; false yields invalid_signature, a throw
yields signature_verification_failed. -/
def verifyTxSignature (env : SdkEnv) (txBlob : String) : Option VerifyResponse :=
  match env.verifySignature txBlob with
  | some true => none
  | some false => some (.invalid "invalid_signature")
  | none => some (.invalid "signature_verification_failed")

/-- The amount leg of step 4: claimed amount against the decoded Amount field.
For issued and MPT claims the identifying fields are compared with strict
equality and the value strings numerically (parseFloat); a native claim is
compared with strict string equality.  A claimed object matching neither guard
falls to the strict-equality branch, where two distinct object references are
never equal in JS, hence always a mismatch. -/
def crossCheckAmount (txAmount : Option AmountVal) (authAmount : AmountVal) :
    Option VerifyResponse :=
  if isIssuedCurrencyAmount authAmount then
    match txAmount, authAmount with
    | some (.obj t), .obj o =>
      if t.currency ≠ o.currency || t.issuer ≠ o.issuer
          || !(floatEq (t.value.bind parseFloat) (o.value.bind parseFloat)) then
        some (.invalid "authorization_mismatch_amount")
      else none
    | _, _ => some (.invalid "authorization_mismatch_amount")
  else if isMPTAmount authAmount then
    match txAmount, authAmount with
    | some (.obj t), .obj o =>
      if t.mpt_issuance_id ≠ o.mpt_issuance_id
          || !(floatEq (t.value.bind parseFloat) (o.value.bind parseFloat)) then
        some (.invalid "authorization_mismatch_amount")
      else none
    | _, _ => some (.invalid "authorization_mismatch_amount")
  else
    match authAmount with
    | .str s =>
      if txAmount ≠ some (.str s) then some (.invalid "authorization_mismatch_amount")
      else none
    | .obj _ => some (.invalid "authorization_mismatch_amount")

/-- The replay-handle leg of step 4: ticket claims require Sequence 0 and a
matching TicketSequence; otherwise Sequence must match. -/
def crossCheckSequence (tx : Tx) (auth : XrplAuthorization) : Option VerifyResponse :=
  match auth.ticketSequence with
  | some ts =>
    if tx.Sequence ≠ some 0 || tx.TicketSequence ≠ some ts then
      some (.invalid "authorization_mismatch_sequence")
    else none
  | none =>
    if tx.Sequence ≠ some auth.sequence then
      some (.invalid "authorization_mismatch_sequence")
    else none

/-- The optional expiry leg of step 4. -/
def crossCheckLastLedger (tx : Tx) (auth : XrplAuthorization) : Option VerifyResponse :=
  match auth.lastLedgerSequence with
  | some l =>
    if tx.LastLedgerSequence ≠ some l then
      some (.invalid "authorization_mismatch_last_ledger_sequence")
    else none
  | none => none

/-- Step 4: cross-check every claimed authorization field against the decoded
transaction. -/
def crossCheckAuthorization (tx : Tx) (payload : ExactXrplPayload) :
    Option VerifyResponse :=
  let auth := payload.authorization
  if tx.Account ≠ some auth.account then
    some (.invalid "authorization_mismatch_account")
  else if tx.Destination ≠ some auth.destination then
    some (.invalid "authorization_mismatch_destination")
  else if tx.Fee ≠ some auth.fee then
    some (.invalid "authorization_mismatch_fee")
  else
    match crossCheckAmount tx.Amount auth.amount with
    | some r => some r
    | none =>
      match crossCheckSequence tx auth with
      | some r => some r
      | none => crossCheckLastLedger tx auth

/-- Step 5: the claimed destination must equal requirements.payTo. -/
def checkDestination (payload : ExactXrplPayload) (req : PaymentRequirements) :
    Option VerifyResponse :=
  if payload.authorization.destination ≠ req.payTo then
    some (.invalid "destination_mismatch")
  else none

/-- BigInt applied to a JS amount value: BigInt of an object throws, modelled
as none. -/
def parseBigIntAmount : AmountVal → Option Int
  | .str s => parseBigInt s
  | .obj _ => none

/-- Step 6: amount sufficiency.  Issued and MPT amounts compare parsed values;
native amounts compare as exact big integers, a BigInt throw yielding
invalid_amount_format. -/
def checkAmount (payload : ExactXrplPayload) (req : PaymentRequirements) :
    Option VerifyResponse :=
  let auth := payload.authorization
  let requiredAmount := req.maxAmountRequired
  if isIssuedCurrencyAmount auth.amount then
    match auth.amount with
    | .obj o =>
      if insufficientFloat (o.value.bind parseFloat) (parseFloat requiredAmount) then
        some (.invalid "insufficient_amount")
      else none
    | .str _ => none
  else if isMPTAmount auth.amount then
    match auth.amount with
    | .obj o =>
      if insufficientFloat (o.value.bind parseFloat) (parseFloat requiredAmount) then
        some (.invalid "insufficient_amount")
      else none
    | .str _ => none
  else
    match parseBigIntAmount auth.amount, parseBigInt requiredAmount with
    | some paymentDrops, some requiredDrops =>
      if paymentDrops < requiredDrops then some (.invalid "insufficient_amount")
      else none
    | _, _ => some (.invalid "invalid_amount_format")

/-- Step 7: asset match.  classifyAsset throws on an unrecognized asset string
and checkAsset does not catch it, so the model returns Except.error there; the
final unsupported_asset_type branch of the source is unreachable because
classifyAsset never returns a fourth value. -/
def checkAsset (payload : ExactXrplPayload) (req : PaymentRequirements) :
    Except Unit (Option VerifyResponse) :=
  let auth := payload.authorization
  match classifyAsset req.asset with
  | none => .error ()
  | some .xrp =>
    match auth.amount with
    | .str _ => .ok none
    | .obj _ => .ok (some (.invalid "asset_mismatch"))
  | some .issued =>
    if isIssuedCurrencyAmount auth.amount then
      match auth.amount with
      | .obj o =>
        if o.issuer ≠ some req.asset then .ok (some (.invalid "asset_mismatch_issuer"))
        else .ok none
      | .str _ => .ok none
    else .ok (some (.invalid "asset_mismatch"))
  | some .mpt =>
    if isMPTAmount auth.amount then
      match auth.amount with
      | .obj o =>
        if o.mpt_issuance_id ≠ some (strDrop req.asset 4) then
          .ok (some (.invalid "asset_mismatch_issuance_id"))
        else .ok none
      | .str _ => .ok none
    else .ok (some (.invalid "asset_mismatch"))

/-- Step 8: reject the partial-payment flag; a non-number Flags field counts
as 0. -/
def rejectPartialPayment (tx : Tx) : Option VerifyResponse :=
  let flags := tx.Flags.getD 0
  if flags &&& PARTIAL_PAYMENT_FLAG ≠ 0 then
    some (.invalid "partial_payment_not_allowed")
  else none

/-- Step 12: MPT allowlist, a local hard check. -/
def checkMptAllowlist (network : String) (mptAmount : AmtObj) : Option VerifyResponse :=
  match getMptConfig network (mptAmount.mpt_issuance_id.getD "") with
  | none => some (.invalid "mpt_not_allowlisted")
  | some _ => none

/-! ## Network verification stage (network-checks.ts, mpt-checks.ts)

Ledger RPC responses are supplied as Except values: Except.error models the
request throwing (a transport error). -/

/-- The account_data record of an account_info response. -/
structure AccountData where
  Balance : String
  Sequence : Int
deriving DecidableEq, Repr

/-- One entry of an account_objects type=ticket response; the TicketSequence
key may be absent. -/
structure TicketObj where
  TicketSequence : Option Int
deriving DecidableEq, Repr

/-- One entry of an account_lines response. -/
structure TrustLine where
  currency : String
  limit : String
  freeze_peer : Bool
deriving DecidableEq, Repr

/-- A ledger_entry node for an MPT issuance or MPToken; the fields the checks
read may be absent. -/
structure MptNode where
  Flags : Option Nat
  MPTAmount : Option String
deriving DecidableEq, Repr

/-- The ledger responses the network verification stage consumes;
Except.error models a transport error, and ok none for a ledger_entry models
a response with no node. -/
structure NetEnv where
  accountInfo : Except Unit AccountData
  ticketObjects : Except Unit (List TicketObj)
  ledgerIndex : Except Unit Int
  trustLines : Except Unit (List TrustLine)
  mptIssuance : Except Unit (Option MptNode)
  mptHolderNode : Except Unit (Option MptNode)
  mptDestNode : Except Unit (Option MptNode)

/-- The replay-handle leg of step 9: a ticket claim looks the ticket up in the
account objects (its own lookup error soft-fails and falls through to pass); a
sequence claim must match the account's current sequence. -/
def checkSeqOrTicket (net : NetEnv) (info : AccountData) (sequence : Int)
    (ticketSequence : Option Int) : Option VerifyResponse :=
  match ticketSequence with
  | some ts =>
    match net.ticketObjects with
    | .error _ => none
    | .ok objs =>
      if objs.any (fun obj => obj.TicketSequence == some ts) then none
      else some (.invalid "ticket_not_found")
  | none =>
    if sequence ≠ info.Sequence then some (.invalid "invalid_sequence")
    else none

/-- Step 9: balance and replay-handle check.  The whole body sits in a
try/catch whose catch returns pass, so a transport error on account_info, or a
BigInt throw on any of the strings, yields none. -/
def checkAccountBalance (net : NetEnv) (_account : String) (amount : AmountVal)
    (fee : String) (sequence : Int) (ticketSequence : Option Int) :
    Option VerifyResponse :=
  match net.accountInfo with
  | .error _ => none
  | .ok info =>
    match parseBigInt info.Balance, parseBigInt fee with
    | some balance, some feeDrops =>
      let reserve : Int := 10000000
      if !(isIssuedCurrencyAmount amount) then
        match parseBigIntAmount amount with
        | none => none
        | some amountDrops =>
          if balance < amountDrops + feeDrops + reserve then
            some (.invalid "insufficient_balance")
          else checkSeqOrTicket net info sequence ticketSequence
      else
        if balance < feeDrops + reserve then
          some (.invalid "insufficient_balance_for_fees")
        else checkSeqOrTicket net info sequence ticketSequence
    | _, _ => none

/-- Step 10: the expiry height, when present, must be at least 4 ledgers past
the current index; a transport error on the index query yields pass. -/
def checkLedgerExpiry (net : NetEnv) (lastLedgerSequence : Option Int) :
    Option VerifyResponse :=
  match lastLedgerSequence with
  | none => none
  | some l =>
    match net.ledgerIndex with
    | .error _ => none
    | .ok currentLedger =>
      if l < currentLedger + 4 then
        some (.invalid "transaction_will_expire_too_soon")
      else none

/-- Step 11: trust line check for issued currency; note that a NaN limit
passes the limit test because NaN is not less-or-equal 0 in JS. -/
def checkTrustLine (net : NetEnv) (_destination : String) (amount : AmtObj) :
    Option VerifyResponse :=
  match net.trustLines with
  | .error _ => none
  | .ok lines =>
    match lines.find? (fun line => some line.currency == amount.currency) with
    | none => some (.invalid "no_trust_line")
    | some trustLine =>
      if (match parseFloat trustLine.limit with
          | some q => decide (q ≤ 0)
          | none => false) then
        some (.invalid "trust_line_limit_zero")
      else if trustLine.freeze_peer then some (.invalid "trust_line_frozen")
      else none

/-- Step 13: the MPT issuance must exist and carry tfMPTCanTransfer. -/
def checkMptIssuance (net : NetEnv) (_issuanceId : String) : Option VerifyResponse :=
  match net.mptIssuance with
  | .error _ => none
  | .ok none => some (.invalid "mpt_issuance_not_found")
  | .ok (some node) =>
    if node.Flags.getD 0 &&& tfMPTCanTransfer = 0 then
      some (.invalid "mpt_not_transferable")
    else none

/-- Step 14: the sender must hold an authorized, unlocked MPToken with
sufficient balance; a missing or non-string MPTAmount counts as 0, and the
balance comparison follows JS NaN semantics. -/
def checkMptHolder (net : NetEnv) (_account : String) (mptAmount : AmtObj) :
    Option VerifyResponse :=
  match net.mptHolderNode with
  | .error _ => none
  | .ok none => some (.invalid "mpt_holder_not_authorized")
  | .ok (some node) =>
    if node.Flags.getD 0 &&& 0x0001 ≠ 0 then
      some (.invalid "mpt_holder_locked")
    else
      let balance : Option ℚ :=
        match node.MPTAmount with
        | some s => parseFloat s
        | none => some 0
      if floatLt balance (mptAmount.value.bind parseFloat) then
        some (.invalid "mpt_insufficient_balance")
      else none

/-- Step 15: the destination must hold an authorized, unlocked MPToken entry. -/
def checkMptDestination (net : NetEnv) (_destination : String) (_issuanceId : String) :
    Option VerifyResponse :=
  match net.mptDestNode with
  | .error _ => none
  | .ok none => some (.invalid "mpt_destination_not_authorized")
  | .ok (some node) =>
    if node.Flags.getD 0 &&& 0x0001 ≠ 0 then
      some (.invalid "mpt_destination_locked")
    else none

/-! ## The verification pipeline (verify in verify.ts) -/

/-- Short-circuit combinator: a failing step returns its response, a passing
step continues with the rest of the pipeline. -/
def step (r : Option VerifyResponse) (k : Unit → Except Unit VerifyResponse) :
    Except Unit VerifyResponse :=
  match r with
  | some v => .ok v
  | none => k ()

/-- The network steps 9-11 and 13-15, run only when a client is present. -/
def verifyNetworkSteps (net : NetEnv) (payload : ExactXrplPayload) :
    Except Unit VerifyResponse :=
  let auth := payload.authorization
  step (checkAccountBalance net auth.account auth.amount auth.fee auth.sequence
      auth.ticketSequence) fun _ =>
  step (checkLedgerExpiry net auth.lastLedgerSequence) fun _ =>
  step (match auth.amount with
        | .obj o =>
          if isIssuedCurrencyAmount auth.amount then
            checkTrustLine net auth.destination o
          else none
        | .str _ => none) fun _ =>
  step (match auth.amount with
        | .obj o =>
          if isMPTAmount auth.amount then
            match checkMptIssuance net (o.mpt_issuance_id.getD "") with
            | some r => some r
            | none =>
              match checkMptHolder net auth.account o with
              | some r => some r
              | none => checkMptDestination net auth.destination (o.mpt_issuance_id.getD "")
          else none
        | .str _ => none) fun _ =>
  .ok .valid

/-- The full verification pipeline: offline steps 1-8, the local MPT allowlist
(step 12), then the network steps when a client is supplied.  Except.error
models an exception escaping the pipeline (the classifyAsset throw inside
checkAsset, which nothing catches). -/
def verify (env : SdkEnv) (payload : ExactXrplPayload) (req : PaymentRequirements)
    (client : Option NetEnv) : Except Unit VerifyResponse :=
  match decodeTxBlob env payload.txBlob with
  | .inr r => .ok r
  | .inl tx =>
    step (validateTransaction env tx) fun _ =>
    step (verifyTxSignature env payload.txBlob) fun _ =>
    step (crossCheckAuthorization tx payload) fun _ =>
    step (checkDestination payload req) fun _ =>
    step (checkAmount payload req) fun _ =>
    match checkAsset payload req with
    | .error e => .error e
    | .ok step7 =>
      step step7 fun _ =>
      step (rejectPartialPayment tx) fun _ =>
      step (match payload.authorization.amount with
            | .obj o =>
              if isMPTAmount payload.authorization.amount then
                checkMptAllowlist req.network o
              else none
            | .str _ => none) fun _ =>
      match client with
      | none => .ok .valid
      | some net => verifyNetworkSteps net payload

/-! ## Settlement engine (settle.ts) -/

/-- Settle endpoint response. -/
structure SettleResponse where
  success : Bool
  transaction : Option String
  network : Option String
  payer : Option String
  errorReason : Option String
deriving DecidableEq, Repr

/-- mapEngineResult: XRPL engine result codes mapped to stable reasons, with a
generic fallback. -/
def mapEngineResult (engineResult : String) : String :=
  if engineResult = "tecPATH_DRY" then "destination_cannot_receive_asset"
  else if engineResult = "tecUNFUNDED_PAYMENT" then "insufficient_funds"
  else if engineResult = "tecNO_DST" then "destination_account_not_found"
  else if engineResult = "tecNO_DST_INSUF_XRP" then "destination_below_reserve"
  else if engineResult = "tecFROZEN" then "asset_frozen"
  else if engineResult = "tefPAST_SEQ" then "transaction_expired_sequence"
  else if engineResult = "tefMAX_LEDGER" then "transaction_expired_ledger"
  else if engineResult = "tefALREADY" then "transaction_already_applied"
  else if engineResult = "temBAD_AMOUNT" then "invalid_amount"
  else if engineResult = "temBAD_FEE" then "invalid_fee"
  else if engineResult = "temDST_IS_SRC" then "destination_is_source"
  else if engineResult = "tecMPTOKEN_NOT_AUTHORIZED" then "mpt_not_authorized"
  else if engineResult = "tecMPT_NOT_ENABLED" then "mpt_not_enabled"
  else if engineResult = "tecMPT_LOCKED" then "mpt_locked"
  else if engineResult = "tecMPT_MAX_AMOUNT_EXCEEDED" then "mpt_max_amount_exceeded"
  else "settlement_failed: " ++ engineResult

/-- The immediate response of client.submit. -/
structure SubmitInfo where
  engine_result : String
  hash : Option String
deriving DecidableEq, Repr

/-- One tx-status poll response: whether the transaction is validated, its
final TransactionResult when the meta carries one, and the tx_json Account
when it is a string. -/
structure TxLookup where
  validated : Bool
  transactionResult : Option String
  payerAccount : Option String
deriving DecidableEq, Repr

/-- The ledger submission capability: submit a blob, and look a hash up by
poll-attempt index.  Except.error on submit models client.submit throwing;
Except.error on a lookup models the tx request throwing (not found yet). -/
structure LedgerEnv where
  submit : String → Except Unit SubmitInfo
  txLookup : String → Nat → Except Unit TxLookup

/-- Default polling attempt bound of submitAndWait. -/
def MAX_ATTEMPTS : Nat := 10

/-- The polling loop of submitAndWait: up to the remaining number of attempts,
query the transaction; a throw or a not-yet-validated response continues the
loop; a validated response resolves success or mapped failure; exhaustion
yields settlement_timeout. -/
def pollForValidation (lenv : LedgerEnv) (txHash : String) :
    Nat → Nat → SettleResponse
  | 0, _ =>
    { success := false, transaction := some txHash, network := some "",
      payer := none, errorReason := some "settlement_timeout" }
  | remaining + 1, attempt =>
    match lenv.txLookup txHash attempt with
    | .error _ => pollForValidation lenv txHash remaining (attempt + 1)
    | .ok lookup =>
      if lookup.validated then
        if lookup.transactionResult = some "tesSUCCESS" then
          { success := true, transaction := some txHash, network := some "",
            payer := lookup.payerAccount, errorReason := none }
        else
          { success := false, transaction := some txHash, network := some "",
            payer := none,
            errorReason := some (match lookup.transactionResult with
              | some r => mapEngineResult r
              | none => "settlement_failed") }
      else pollForValidation lenv txHash remaining (attempt + 1)

/-- submitAndWait: submit the blob once, return immediately on tef/tem/tec
codes, otherwise poll for validation.  Except.error models client.submit
throwing, the only uncaught external call in the body. -/
def submitAndWait (lenv : LedgerEnv) (txBlob : String) (maxAttempts : Nat) :
    Except Unit SettleResponse :=
  match lenv.submit txBlob with
  | .error e => .error e
  | .ok submitResult =>
    let engineResult := submitResult.engine_result
    let txHash := submitResult.hash
    if strStartsWith engineResult "tef" || strStartsWith engineResult "tem" then
      .ok { success := false, errorReason := some (mapEngineResult engineResult),
            transaction := some (txHash.getD ""), network := some "", payer := none }
    else if strStartsWith engineResult "tec" then
      .ok { success := false, errorReason := some (mapEngineResult engineResult),
            transaction := some (txHash.getD ""), network := some "", payer := none }
    else
      match txHash with
      | none =>
        .ok { success := false, errorReason := some "no_transaction_hash",
              transaction := none, network := some "", payer := none }
      | some h => .ok (pollForValidation lenv h maxAttempts 0)

/-! ## Fee verification and two-phase settlement (fee.ts) -/

/-- FEE_SCHEDULE.standard: null (free tier). -/
def FEE_SCHEDULE_standard : Option String := none

/-- FEE_SCHEDULE.mpt: the string "0" — fee infrastructure on, nobody charged. -/
def FEE_SCHEDULE_mpt : Option String := some "0"

/-- The field-by-field checks of verifyFeePayload once a non-empty facilitator
address, fee blob and fee authorization are in hand. -/
def verifyFeePayloadChecks (env : SdkEnv) (facAddr : String)
    (payload : ExactXrplPayload) (feeTxBlob : String) (feeAuth : FeeAuthorization)
    (expectedFeeAmount : Option String) : Option VerifyResponse :=
  match env.decode feeTxBlob with
  | none => some (.invalid "fee_invalid_tx_blob")
  | some feeTx =>
    match env.verifySignature feeTxBlob with
    | none => some (.invalid "fee_signature_verification_failed")
    | some false => some (.invalid "fee_invalid_signature")
    | some true =>
      if feeTx.Account ≠ some feeAuth.account then
        some (.invalid "fee_authorization_mismatch_account")
      else if feeTx.Destination ≠ some feeAuth.destination then
        some (.invalid "fee_authorization_mismatch_destination")
      else if feeTx.Amount ≠ some (.str feeAuth.amount) then
        some (.invalid "fee_authorization_mismatch_amount")
      else if some feeAuth.destination ≠ some facAddr then
        some (.invalid "fee_wrong_destination")
      else if some feeAuth.amount ≠ expectedFeeAmount then
        some (.invalid "fee_wrong_amount")
      else if feeAuth.account ≠ payload.authorization.account then
        some (.invalid "fee_payer_mismatch")
      else none

/-- verifyFeePayload: pass unconditionally for a null or "0" advertised fee;
with a non-zero fee, require a configured facilitator address and the fee
fields, then cross-check the fee blob.  JS truthiness makes an empty-string
facilitator address count as unconfigured and an empty-string fee blob count
as absent. -/
def verifyFeePayload (env : SdkEnv) (facilitatorAddress : Option String)
    (payload : ExactXrplPayload) (expectedFeeAmount : Option String) :
    Option VerifyResponse :=
  if expectedFeeAmount = none || expectedFeeAmount = some "0" then none
  else if strFalsy facilitatorAddress then
    if strFalsy payload.feeTxBlob && payload.feeAuthorization = none then none
    else some (.invalid "fee_facilitator_not_configured")
  else
    match payload.feeTxBlob, payload.feeAuthorization with
    | some feeTxBlob, some feeAuth =>
      if strIsEmpty feeTxBlob then some (.invalid "fee_payment_required")
      else
        verifyFeePayloadChecks env (facilitatorAddress.getD "") payload feeTxBlob
          feeAuth expectedFeeAmount
    | _, _ => some (.invalid "fee_payment_required")

/-- Tag distinguishing the two submission call sites of a settle call. -/
inductive SubmitTag
  | primary
  | fee
deriving DecidableEq, Repr

/-- settleWithFee: submit the fee blob only after merchant success; the fee
result (success, mapped failure, or a throw caught by the surrounding
try/catch) is logged and discarded, and the merchant result is always
returned.  The second component records the submissions made. -/
def settleWithFee (lenv : LedgerEnv) (merchantResult : SettleResponse)
    (feeTxBlob : String) (_network : String) :
    SettleResponse × List (SubmitTag × String) :=
  if !merchantResult.success then (merchantResult, [])
  else
    let _feeResult := submitAndWait lenv feeTxBlob MAX_ATTEMPTS
    (merchantResult, [(.fee, feeTxBlob)])

/-- settle: re-verify with network checks, verify the fee payload when the
payment is an MPT amount, submit the merchant blob, then (two-phase) hand off
to settleWithFee when a truthy fee blob is present and the merchant settlement
succeeded.  Returns the response (or the exception escaping verify), the list
of ledger submissions made, and whether verifyFeePayload was invoked. -/
def settle (env : SdkEnv) (net : NetEnv) (lenv : LedgerEnv)
    (facilitatorAddress : Option String) (payload : ExactXrplPayload)
    (req : PaymentRequirements) (network : String) :
    Except Unit SettleResponse × List (SubmitTag × String) × Bool :=
  match verify env payload req (some net) with
  | .error e => (.error e, [], false)
  | .ok verifyResult =>
    if !verifyResult.isValid then
      (.ok { success := false,
             errorReason := some (verifyResult.invalidReason.getD "verification_failed"),
             transaction := none, network := some network, payer := none }, [], false)
    else
      let feeRan := isMPTAmount payload.authorization.amount
      let feeCheck : Option VerifyResponse :=
        if isMPTAmount payload.authorization.amount then
          verifyFeePayload env facilitatorAddress payload FEE_SCHEDULE_mpt
        else none
      match feeCheck with
      | some feeResp =>
        (.ok { success := false, errorReason := feeResp.invalidReason,
               transaction := none, network := some network, payer := none },
         [], feeRan)
      | none =>
        match submitAndWait lenv payload.txBlob MAX_ATTEMPTS with
        | .error _ =>
          -- the try/catch around submission: settlement_error (message elided)
          (.ok { success := false, errorReason := some "settlement_error",
                 transaction := none, network := some network, payer := none },
           [(.primary, payload.txBlob)], feeRan)
        | .ok merchantResult0 =>
          let merchantResult := { merchantResult0 with network := some network }
          match payload.feeTxBlob with
          | some feeBlob =>
            if !(strIsEmpty feeBlob) && merchantResult.success then
              let (res, feeTrace) := settleWithFee lenv merchantResult feeBlob network
              (.ok res, (.primary, payload.txBlob) :: feeTrace, feeRan)
            else (.ok merchantResult, [(.primary, payload.txBlob)], feeRan)
          | none => (.ok merchantResult, [(.primary, payload.txBlob)], feeRan)

/-! ## Concrete fixtures used to evaluate the definitions -/

/-- A decoded transaction agreeing with authPass. -/
def txPass : Tx :=
  { Account := some "rAlice", Destination := some "rBob", Fee := some "12",
    Amount := some (.str "1000000"), Sequence := some 7, TicketSequence := none,
    LastLedgerSequence := none, Flags := none }

/-- An authorization for a native payment of amt drops from rAlice to rBob. -/
def mkNativeAuth (amt : String) : XrplAuthorization :=
  { account := "rAlice", destination := "rBob", amount := .str amt, fee := "12",
    sequence := 7, ticketSequence := none, lastLedgerSequence := none }

/-- A payload for a native payment of amt drops. -/
def mkNativePayload (amt : String) : ExactXrplPayload :=
  { txBlob := "BLOB1", authorization := mkNativeAuth amt, feeTxBlob := none,
    feeAuthorization := none }

/-- Requirements for a native payment of at least required drops to rBob. -/
def mkNativeReq (required : String) : PaymentRequirements :=
  { payTo := "rBob", maxAmountRequired := required, asset := "XRP",
    network := "xrpl:1" }

/-- The native payload matching txPass. -/
def payloadPass : ExactXrplPayload := mkNativePayload "1000000"

/-- Requirements satisfied by payloadPass. -/
def reqPass : PaymentRequirements := mkNativeReq "1000000"

/-- An SDK oracle where decode yields txPass, validation passes and the
signature verifies. -/
def sdkOk : SdkEnv :=
  { decode := fun _ => some txPass, validate := fun _ => true,
    verifySignature := fun _ => some true }

/-- An SDK oracle where the signature check returns false. -/
def sdkBadSig : SdkEnv :=
  { decode := fun _ => some txPass, validate := fun _ => true,
    verifySignature := fun _ => some false }

/-- A ledger RPC oracle where every request raises a transport error. -/
def netErr : NetEnv :=
  { accountInfo := .error (), ticketObjects := .error (), ledgerIndex := .error (),
    trustLines := .error (), mptIssuance := .error (), mptHolderNode := .error (),
    mptDestNode := .error () }

/-- Requirements whose asset string matches no known format. -/
def reqUnknownAsset : PaymentRequirements :=
  { payTo := "rBob", maxAmountRequired := "1000000", asset := "USD",
    network := "xrpl:1" }

/-- An amount object carrying the identifying fields of both the
issued-currency and the MPT variants. -/
def dualAmt : AmtObj :=
  { currency := some "USD", issuer := some "rIssuer1", value := some "10",
    mpt_issuance_id := some "ABCD" }

/-- A decoded transaction whose Amount is the dual-variant object. -/
def txDual : Tx :=
  { Account := some "rAlice", Destination := some "rBob", Fee := some "12",
    Amount := some (.obj dualAmt), Sequence := some 7, TicketSequence := none,
    LastLedgerSequence := none, Flags := none }

/-- An SDK oracle decoding to txDual. -/
def sdkDual : SdkEnv :=
  { decode := fun _ => some txDual, validate := fun _ => true,
    verifySignature := fun _ => some true }

/-- A payload claiming the dual-variant amount. -/
def payloadDual : ExactXrplPayload :=
  { txBlob := "BLOB1",
    authorization :=
      { account := "rAlice", destination := "rBob", amount := .obj dualAmt,
        fee := "12", sequence := 7, ticketSequence := none,
        lastLedgerSequence := none },
    feeTxBlob := none, feeAuthorization := none }

/-- Requirements asking for the issued currency of rIssuer1. -/
def reqIssuer1 : PaymentRequirements :=
  { payTo := "rBob", maxAmountRequired := "10", asset := "rIssuer1",
    network := "xrpl:1" }

/-- An issued-currency amount object with value written "25.5". -/
def issuedShort : AmtObj :=
  { currency := some "USD", issuer := some "rIss", value := some "25.5",
    mpt_issuance_id := none }

/-- The same issued-currency amount with a trailing zero, "25.50". -/
def issuedLong : AmtObj :=
  { currency := some "USD", issuer := some "rIss", value := some "25.50",
    mpt_issuance_id := none }

/-- A payload claiming the "25.50" issued amount. -/
def payloadIssued : ExactXrplPayload :=
  { txBlob := "BLOB1",
    authorization :=
      { account := "rAlice", destination := "rBob", amount := .obj issuedLong,
        fee := "12", sequence := 7, ticketSequence := none,
        lastLedgerSequence := none },
    feeTxBlob := none, feeAuthorization := none }

/-- Requirements asking for at least "25.5" of rIss currency. -/
def reqIssued : PaymentRequirements :=
  { payTo := "rBob", maxAmountRequired := "25.5", asset := "rIss",
    network := "xrpl:1" }

/-- A ledger submission oracle where every call raises. -/
def lenvErr : LedgerEnv :=
  { submit := fun _ => .error (), txLookup := fun _ _ => .error () }

/-- A ledger submission oracle that reports an immediate permanent failure. -/
def lenvTef : LedgerEnv :=
  { submit := fun _ => .ok { engine_result := "tefPAST_SEQ", hash := some "HASH1" },
    txLookup := fun _ _ => .error () }

/-- A ledger submission oracle that accepts and validates everything
submitted to it. -/
def lenvOk : LedgerEnv :=
  { submit := fun _ => .ok { engine_result := "tesSUCCESS", hash := some "HASH1" },
    txLookup := fun _ _ =>
      .ok { validated := true, transactionResult := some "tesSUCCESS",
            payerAccount := some "rAlice" } }

/-- payloadPass plus an attached fee blob. -/
def payloadWithFee : ExactXrplPayload :=
  { payloadPass with feeTxBlob := some "FEEBLOB" }

/-- A successful primary settlement record. -/
def merchantOk : SettleResponse :=
  { success := true, transaction := some "HASH1", network := some "xrpl:1",
    payer := some "rAlice", errorReason := none }

/-! ## Helper lemmas -/

/-- An MPT amount is never an issued-currency amount: the MPT guard excludes
any object carrying a currency key. -/
theorem isMPTAmount_not_issued (a : AmountVal) (h : isMPTAmount a = true) :
    isIssuedCurrencyAmount a = false := by
  cases a with
  | str s => rfl
  | obj o =>
    simp only [isMPTAmount, Bool.and_eq_true, Bool.not_eq_true'] at h
    simp [isIssuedCurrencyAmount, h.2]

/-- The only failing responses of the signature step. -/
theorem verifyTxSignature_reasons (env : SdkEnv) (txBlob : String)
    (resp : VerifyResponse) (h : verifyTxSignature env txBlob = some resp) :
    resp = .invalid "invalid_signature" ∨
    resp = .invalid "signature_verification_failed" := by
  unfold verifyTxSignature at h
  rcases hs : env.verifySignature txBlob with _ | b
  · rw [hs] at h
    exact Or.inr (Option.some.inj h).symm
  · cases b
    · rw [hs] at h
      exact Or.inl (Option.some.inj h).symm
    · rw [hs] at h
      cases h

/-- With FEE_SCHEDULE.mpt fixed at "0", fee verification passes
unconditionally. -/
theorem verifyFeePayload_mpt_schedule (env : SdkEnv) (facAddr : Option String)
    (payload : ExactXrplPayload) :
    verifyFeePayload env facAddr payload FEE_SCHEDULE_mpt = none := by
  simp [verifyFeePayload, FEE_SCHEDULE_mpt]

/-! ## Claim theorems -/

/-- C1: the offline pipeline runs its steps in a fixed order and returns the
failure of the first failing step: when decode and structural validation pass
and the signature step fails, verify returns the signature step's response —
which is invalid_signature or signature_verification_failed and never
insufficient_amount — even when the amount-sufficiency step would also fail. -/
theorem verify_step3_shadows_step6 (env : SdkEnv) (payload : ExactXrplPayload)
    (req : PaymentRequirements) (client : Option NetEnv) (tx : Tx)
    (resp r6 : VerifyResponse)
    (h1 : env.decode payload.txBlob = some tx)
    (h2 : env.validate tx = true)
    (h3 : verifyTxSignature env payload.txBlob = some resp)
    (_h6 : checkAmount payload req = some r6) :
    verify env payload req client = .ok resp ∧
    (resp = .invalid "invalid_signature" ∨
      resp = .invalid "signature_verification_failed") ∧
    resp ≠ .invalid "insufficient_amount" := by
  have hr := verifyTxSignature_reasons env payload.txBlob resp h3
  refine ⟨?_, hr, ?_⟩
  · simp [verify, decodeTxBlob, h1, validateTransaction, h2, step, h3]
  · rcases hr with h | h <;> subst h <;> decide

/-- C1 witness: a payload with a failing signature and an insufficient native
amount reports invalid_signature. -/
theorem verify_step3_shadows_step6_witness :
    verify sdkBadSig (mkNativePayload "1") (mkNativeReq "2") none =
      .ok (.invalid "invalid_signature") ∧
    (.invalid "invalid_signature" : VerifyResponse) ≠ .invalid "insufficient_amount" := by
  have h := verify_step3_shadows_step6 sdkBadSig (mkNativePayload "1")
    (mkNativeReq "2") none txPass (.invalid "invalid_signature")
    (.invalid "insufficient_amount") rfl rfl (by decide) (by decide)
  exact ⟨h.1, h.2.2⟩

/-- C2: the claim that no step throws past the pipeline boundary is broken by
checkAsset: classifyAsset throws on an asset string that is not "XRP", does
not start with "r" and does not start with "mpt:", checkAsset does not catch
it, and verify surfaces the exception instead of an Invalid response; the
unsupported_asset_type branch of checkAsset is unreachable. -/
theorem checkAsset_throws_on_unknown_asset :
    classifyAsset "USD" = none ∧
    checkAsset payloadPass reqUnknownAsset = .error () ∧
    verify sdkOk payloadPass reqUnknownAsset none = .error () :=
  ⟨rfl, rfl, rfl⟩

/-- C3 counterexample: an object carrying the identifying fields of both the
issued-currency and the MPT variants is not rejected as malformed — it
satisfies the issued-currency guard and the full offline pipeline accepts the
payload as a valid issued-currency payment. -/
theorem dual_variant_object_accepted :
    isIssuedCurrencyAmount (.obj dualAmt) = true ∧
    isMPTAmount (.obj dualAmt) = false ∧
    checkAmount payloadDual reqIssuer1 = none ∧
    verify sdkDual payloadDual reqIssuer1 none = .ok .valid :=
  ⟨rfl, rfl, rfl, rfl⟩

/-- C3 amended: classification is unambiguous in the weaker sense that at most
one variant guard holds of any amount value; but an object carrying the
identifying fields of both variants is classified as issued-currency (the MPT
guard excludes currency-bearing objects) and accepted, not rejected as
malformed. -/
theorem amount_classification_unambiguous (o : AmtObj)
    (hc : o.currency.isSome = true) (hi : o.issuer.isSome = true)
    (hv : o.value.isSome = true) (_hm : o.mpt_issuance_id.isSome = true) :
    (∀ a : AmountVal, ¬(isIssuedCurrencyAmount a = true ∧ isMPTAmount a = true)) ∧
    isIssuedCurrencyAmount (.obj o) = true ∧
    isMPTAmount (.obj o) = false := by
  refine ⟨?_, ?_, ?_⟩
  · rintro a ⟨h1, h2⟩
    rw [isMPTAmount_not_issued a h2] at h1
    cases h1
  · simp [isIssuedCurrencyAmount, hc, hi, hv]
  · simp [isMPTAmount, hc]

/-- C3 amended witness: the dual-field object is classified as issued, never
as MPT, and the guards are mutually exclusive. -/
theorem amount_classification_unambiguous_witness :
    (∀ a : AmountVal, ¬(isIssuedCurrencyAmount a = true ∧ isMPTAmount a = true)) ∧
    isIssuedCurrencyAmount (.obj dualAmt) = true ∧
    isMPTAmount (.obj dualAmt) = false :=
  amount_classification_unambiguous dualAmt rfl rfl rfl rfl

/-- C4: native amount sufficiency is exact arbitrary-precision integer
comparison of the two strings: it fails with insufficient_amount exactly when
the payment is numerically below the requirement, and passes exactly when it
is at least the requirement. -/
theorem native_amount_exact_comparison (payload : ExactXrplPayload)
    (req : PaymentRequirements) (s : String) (p r : Int)
    (hs : payload.authorization.amount = .str s)
    (hp : parseBigInt s = some p)
    (hr : parseBigInt req.maxAmountRequired = some r) :
    (checkAmount payload req = some (.invalid "insufficient_amount") ↔ p < r) ∧
    (checkAmount payload req = none ↔ r ≤ p) := by
  simp only [checkAmount, hs, isIssuedCurrencyAmount, isMPTAmount,
    Bool.false_eq_true, if_false, parseBigIntAmount, hp, hr]
  by_cases h : p < r <;> simp [h] <;> omega

/-- C4 witness: "999999" against "1000000" fails, "1000000" against "1000000"
passes, and the comparison stays exact beyond double precision:
"9007199254740993" (2 to the 53rd plus 1) satisfies "9007199254740992". -/
theorem native_amount_exact_comparison_witness :
    checkAmount (mkNativePayload "999999") (mkNativeReq "1000000") =
      some (.invalid "insufficient_amount") ∧
    checkAmount (mkNativePayload "1000000") (mkNativeReq "1000000") = none ∧
    checkAmount (mkNativePayload "9007199254740993")
      (mkNativeReq "9007199254740992") = none := by
  refine ⟨?_, ?_, ?_⟩
  · exact (native_amount_exact_comparison (mkNativePayload "999999")
      (mkNativeReq "1000000") "999999" 999999 1000000 rfl (by decide)
      (by decide)).1.mpr (by decide)
  · exact (native_amount_exact_comparison (mkNativePayload "1000000")
      (mkNativeReq "1000000") "1000000" 1000000 1000000 rfl (by decide)
      (by decide)).2.mpr (by decide)
  · exact (native_amount_exact_comparison (mkNativePayload "9007199254740993")
      (mkNativeReq "9007199254740992") "9007199254740993" 9007199254740993
      9007199254740992 rfl (by decide) (by decide)).2.mpr (by decide)

/-- C5: for issued-currency and MPT amounts both the cross-check and the
sufficiency check compare on parsed numeric value: whenever the claimed and
decoded value strings (and the required minimum) parse to the same number, the
cross-check amount leg and the sufficiency check both pass, regardless of how
the decimal is written. -/
theorem parsed_value_comparison (t o : AmtObj) (payload : ExactXrplPayload)
    (req : PaymentRequirements) (vt vo : String) (q : ℚ)
    (hguard : isIssuedCurrencyAmount (.obj o) = true ∨ isMPTAmount (.obj o) = true)
    (hc : t.currency = o.currency) (hi : t.issuer = o.issuer)
    (hm : t.mpt_issuance_id = o.mpt_issuance_id)
    (htv : t.value = some vt) (hov : o.value = some vo)
    (hqt : parseFloat vt = some q) (hqo : parseFloat vo = some q)
    (ha : payload.authorization.amount = .obj o)
    (hreq : parseFloat req.maxAmountRequired = some q) :
    crossCheckAmount (some (.obj t)) (.obj o) = none ∧
    checkAmount payload req = none := by
  rcases hguard with hg | hg
  · constructor
    · simp [crossCheckAmount, hg, hc, hi, hm, htv, hov, hqt, hqo, floatEq]
    · simp [checkAmount, ha, hg, hov, hqo, hreq, insufficientFloat]
  · have hni := isMPTAmount_not_issued (.obj o) hg
    constructor
    · simp [crossCheckAmount, hni, hg, hc, hi, hm, htv, hov, hqt, hqo, floatEq]
    · simp [checkAmount, ha, hni, hg, hov, hqo, hreq, insufficientFloat]

/-- C5 witness: a decoded value "25.5" cross-checks equal against a claimed
"25.50", and a payment of "25.50" satisfies a required minimum of "25.5". -/
theorem parsed_value_comparison_witness :
    crossCheckAmount (some (.obj issuedShort)) (.obj issuedLong) = none ∧
    checkAmount payloadIssued reqIssued = none :=
  parsed_value_comparison issuedShort issuedLong payloadIssued reqIssued
    "25.5" "25.50" (mkRat 51 2) (Or.inl (by decide)) rfl rfl rfl rfl rfl
    (by decide) (by decide) rfl (by decide)

/-- C6: every network verification check is individually soft-failing: when
its underlying ledger request raises a transport error, each of the six checks
returns pass (none), never a rejection, whatever the other inputs are. -/
theorem network_checks_soft_fail (net : NetEnv)
    (account destination issuanceId fee : String) (amount : AmountVal)
    (line mptAmount : AmtObj) (sequence : Int)
    (ticketSequence lastLedgerSequence : Option Int)
    (h1 : net.accountInfo = .error ()) (h2 : net.ledgerIndex = .error ())
    (h3 : net.trustLines = .error ()) (h4 : net.mptIssuance = .error ())
    (h5 : net.mptHolderNode = .error ()) (h6 : net.mptDestNode = .error ()) :
    checkAccountBalance net account amount fee sequence ticketSequence = none ∧
    checkLedgerExpiry net lastLedgerSequence = none ∧
    checkTrustLine net destination line = none ∧
    checkMptIssuance net issuanceId = none ∧
    checkMptHolder net account mptAmount = none ∧
    checkMptDestination net destination issuanceId = none := by
  refine ⟨?_, ?_, ?_, ?_, ?_, ?_⟩
  · simp [checkAccountBalance, h1]
  · cases lastLedgerSequence <;> simp [checkLedgerExpiry, h2]
  · simp [checkTrustLine, h3]
  · simp [checkMptIssuance, h4]
  · simp [checkMptHolder, h5]
  · simp [checkMptDestination, h6]

/-- C6 witness: all six checks pass under an all-error ledger oracle. -/
theorem network_checks_soft_fail_witness :
    checkAccountBalance netErr "rAlice" (.str "1000000") "12" 7 none = none ∧
    checkLedgerExpiry netErr (some 100) = none ∧
    checkTrustLine netErr "rBob" issuedLong = none ∧
    checkMptIssuance netErr "ABCD" = none ∧
    checkMptHolder netErr "rAlice" dualAmt = none ∧
    checkMptDestination netErr "rBob" "ABCD" = none :=
  network_checks_soft_fail netErr "rAlice" "rBob" "ABCD" "12" (.str "1000000")
    issuedLong dualAmt 7 none (some 100) rfl rfl rfl rfl rfl rfl

/-- C7: settle submits nothing unless re-verification passes: when the re-run
pipeline returns Invalid, settle returns a Failure carrying that verification
reason and the submission trace is empty. -/
theorem settle_requires_reverification (env : SdkEnv) (net : NetEnv)
    (lenv : LedgerEnv) (facAddr : Option String) (payload : ExactXrplPayload)
    (req : PaymentRequirements) (network r : String)
    (h : verify env payload req (some net) = .ok (.invalid r)) :
    settle env net lenv facAddr payload req network =
      (.ok { success := false, transaction := none, network := some network,
             payer := none, errorReason := some r }, [], false) := by
  simp [settle, h, VerifyResponse.isValid, VerifyResponse.invalidReason]

/-- C7 witness: a payload whose signature fails re-verification is never
submitted. -/
theorem settle_requires_reverification_witness :
    settle sdkBadSig netErr lenvOk none payloadPass reqPass "xrpl:1" =
      (.ok { success := false, transaction := none, network := some "xrpl:1",
             payer := none, errorReason := some "invalid_signature" }, [], false) :=
  settle_requires_reverification sdkBadSig netErr lenvOk none payloadPass
    reqPass "xrpl:1" "invalid_signature" (by decide)

/-- C8: a fee-settlement failure is never propagated: whenever the merchant
settlement succeeded, settleWithFee returns exactly the merchant result — with
its transaction id — whatever the fee submission does (fail or throw). -/
theorem fee_failure_not_propagated (lenv : LedgerEnv)
    (merchantResult : SettleResponse) (feeTxBlob network : String)
    (hs : merchantResult.success = true) :
    (settleWithFee lenv merchantResult feeTxBlob network).1 = merchantResult ∧
    (settleWithFee lenv merchantResult feeTxBlob network).1.transaction =
      merchantResult.transaction := by
  simp [settleWithFee, hs]

/-- C8 witness: a successful merchant record survives a fee submission that
is rejected by the ledger. -/
theorem fee_failure_not_propagated_witness :
    (settleWithFee lenvTef merchantOk "FEEBLOB" "xrpl:1").1 = merchantOk ∧
    (settleWithFee lenvTef merchantOk "FEEBLOB" "xrpl:1").1.transaction =
      merchantOk.transaction :=
  fee_failure_not_propagated lenvTef merchantOk "FEEBLOB" "xrpl:1" rfl

/-- C9: when the primary settlement does not succeed (the merchant submission
returns a failing result or throws), the fee blob is never submitted: the
settle call's submission trace contains no fee entry. -/
theorem primary_failure_no_fee_submission (env : SdkEnv) (net : NetEnv)
    (lenv : LedgerEnv) (facAddr : Option String) (payload : ExactXrplPayload)
    (req : PaymentRequirements) (network : String)
    (h : (∃ m, submitAndWait lenv payload.txBlob MAX_ATTEMPTS = .ok m ∧
            m.success = false) ∨
         submitAndWait lenv payload.txBlob MAX_ATTEMPTS = .error ()) :
    ((settle env net lenv facAddr payload req network).2.1.filter
      (fun c => c.1 == SubmitTag.fee)) = [] := by
  unfold settle
  cases hv : verify env payload req (some net) with
  | error e => simp
  | ok vr =>
    cases vr with
    | invalid r => simp [VerifyResponse.isValid]
    | valid =>
      rcases h with ⟨m, hm, hfail⟩ | herr
      · cases hfb : payload.feeTxBlob with
        | none =>
          simp [VerifyResponse.isValid, verifyFeePayload_mpt_schedule, hm, hfb]
        | some feeBlob =>
          simp [VerifyResponse.isValid, verifyFeePayload_mpt_schedule, hm, hfb,
            hfail]
      · simp [VerifyResponse.isValid, verifyFeePayload_mpt_schedule, herr]

/-- C9 witness: a merchant submission rejected with a tef code produces a
trace with no fee submission even though a fee blob is attached. -/
theorem primary_failure_no_fee_submission_witness :
    ((settle sdkOk netErr lenvTef none payloadWithFee reqPass "xrpl:1").2.1.filter
      (fun c => c.1 == SubmitTag.fee)) = [] :=
  primary_failure_no_fee_submission sdkOk netErr lenvTef none payloadWithFee
    reqPass "xrpl:1"
    (Or.inl ⟨{ success := false,
               transaction := some "HASH1", network := some "",
               payer := none,
               errorReason := some "transaction_expired_sequence" },
             by decide, rfl⟩)

/-- C10: fee verification runs in settle only for MPT payments: for a native
or issued payment carrying a fee blob, verifyFeePayload is never invoked in
that settle call, yet once the primary settlement succeeds the fee blob is
still submitted — fee submission is gated only on blob presence and primary
success, not on fee verification having run. -/
theorem fee_submitted_without_verification (env : SdkEnv) (net : NetEnv)
    (lenv : LedgerEnv) (facAddr : Option String) (payload : ExactXrplPayload)
    (req : PaymentRequirements) (network feeBlob : String) (m : SettleResponse)
    (hnm : isMPTAmount payload.authorization.amount = false)
    (hv : verify env payload req (some net) = .ok .valid)
    (hfb : payload.feeTxBlob = some feeBlob)
    (hne : strIsEmpty feeBlob = false)
    (hsub : submitAndWait lenv payload.txBlob MAX_ATTEMPTS = .ok m)
    (hsucc : m.success = true) :
    (settle env net lenv facAddr payload req network).2.2 = false ∧
    (settle env net lenv facAddr payload req network).2.1 =
      [(.primary, payload.txBlob), (.fee, feeBlob)] := by
  simp [settle, hv, VerifyResponse.isValid, hnm, hsub, hfb, hne, settleWithFee,
    hsucc]

/-- C10 witness: a native payment with an attached fee blob settles with no
fee verification invoked and the fee blob submitted after the primary. -/
theorem fee_submitted_without_verification_witness :
    (settle sdkOk netErr lenvOk none payloadWithFee reqPass "xrpl:1").2.2 = false ∧
    (settle sdkOk netErr lenvOk none payloadWithFee reqPass "xrpl:1").2.1 =
      [(.primary, "BLOB1"), (.fee, "FEEBLOB")] :=
  fee_submitted_without_verification sdkOk netErr lenvOk none payloadWithFee
    reqPass "xrpl:1" "FEEBLOB"
    { success := true, transaction := some "HASH1", network := some "",
      payer := some "rAlice", errorReason := none }
    rfl (by decide) rfl rfl (by decide) rfl

end Xrp402
